import Mathlib

/-!
Verification development for the trading_system rebalance engine.

The definitions below are a shallow embedding of the repository's Python
sources.  Numeric values (Python floats / Decimals) are modelled as exact
rationals; Python dicts with fixed key sets are modelled as structures, and
dicts used as maps are modelled as association lists looked up with
List.lookup.  The database session is modelled as an explicit record of
tables threaded through each operation; an HTTP-level raise is modelled as
an Except error that carries the state as committed at the moment of the
raise.  Timestamps are not modelled (no operation in scope branches on
them).  External sinks (the Slack notifier) and the in-memory cash/position
ledger of the execution loop, which the source computes but never persists,
are elided with comments at the corresponding places.
-/

namespace TradingSystem

/-! ### Enums from packages/core/models.py -/

inductive Market where
  | KR
  | US
deriving DecidableEq, Repr

inductive PlanStatus where
  | PROPOSED
  | APPROVED
  | REJECTED
  | EXPIRED
deriving DecidableEq, Repr

inductive ExecutionStatus where
  | PENDING
  | RUNNING
  | DONE
  | FAILED
  | CANCELED
deriving DecidableEq, Repr

inductive RunKind where
  | SIMULATION
  | PAPER
  | PLAN
  | EXECUTE
deriving DecidableEq, Repr

inductive RunStatus where
  | STARTED
  | DONE
  | FAILED
deriving DecidableEq, Repr

inductive OrderSide where
  | BUY
  | SELL
deriving DecidableEq, Repr

inductive OrderStatus where
  | CREATED
  | SENT
  | PARTIAL
  | FILLED
  | CANCELED
  | FAILED
  | SKIPPED
deriving DecidableEq, Repr

/-! ### Order builder, from packages/core/order_builder.py

The builder receives plan-item dicts that the executions router always
populates with symbol, market, the three weights and a current price, so
those dict entries are modelled as structure fields. -/

structure PlanItemInput where
  symbol : String
  market : Market
  current_weight : ℚ
  target_weight : ℚ
  delta_weight : ℚ
  current_price : ℚ
deriving DecidableEq, Repr

/-- One order dict as produced by OrderBuilder.build_orders.  A sell dict
has no estimated_cost key and Python reads it back with .get(_, 0), so the
field defaults to 0; status and error keys are absent until the builder
marks a skip, modelled as Option fields defaulting to none. -/
structure OrderDict where
  symbol : String
  side : OrderSide
  qty : ℚ
  order_type : String
  limit_price : ℚ
  market : Market
  estimated_cost : ℚ := 0
  status : Option String := none
  error : Option String := none
deriving DecidableEq, Repr

namespace OrderBuilder

/-- The sell dict appended for a negative-delta item:
qty = abs(delta_weight) * nav / current_price when the price is positive,
otherwise 0. -/
def sellOrderOf (nav : ℚ) (item : PlanItemInput) : OrderDict :=
  { symbol := item.symbol
    side := OrderSide.SELL
    qty := if 0 < item.current_price then |item.delta_weight| * nav / item.current_price else 0
    order_type := "LIMIT"
    limit_price := item.current_price
    market := item.market }

/-- The buy dict appended for a positive-delta item:
qty = delta_weight * nav / current_price when the price is positive,
otherwise 0, and estimated_cost = delta_weight * nav. -/
def buyOrderOf (nav : ℚ) (item : PlanItemInput) : OrderDict :=
  { symbol := item.symbol
    side := OrderSide.BUY
    qty := if 0 < item.current_price then item.delta_weight * nav / item.current_price else 0
    order_type := "LIMIT"
    limit_price := item.current_price
    market := item.market
    estimated_cost := item.delta_weight * nav }

/-- The f-string of the skip branch; Python renders the two floats, here
the two rationals are rendered with toString. -/
def insufficientCashMsg (cost cash_remaining : ℚ) : String :=
  "Insufficient cash: need " ++ toString cost ++ ", have " ++ toString cash_remaining

/-- The cash-rationing loop over the cost-sorted buy list: an order whose
cost fits the remaining budget is admitted and the budget decremented,
otherwise the order is marked SKIPPED with the insufficient-cash error and
the budget is left unchanged.  Both are appended to the output. -/
def rationBuys (cash_remaining : ℚ) : List OrderDict → List OrderDict
  | [] => []
  | o :: rest =>
    if o.estimated_cost ≤ cash_remaining then
      o :: rationBuys (cash_remaining - o.estimated_cost) rest
    else
      { o with status := some "SKIPPED"
               error := some (insufficientCashMsg o.estimated_cost cash_remaining) }
        :: rationBuys cash_remaining rest

/-- The comparison of buy_orders.sort(key=estimated_cost, reverse=True):
descending by estimated cost. -/
def costDesc (a b : OrderDict) : Prop :=
  b.estimated_cost ≤ a.estimated_cost

instance : DecidableRel costDesc := fun a b =>
  inferInstanceAs (Decidable (b.estimated_cost ≤ a.estimated_cost))

instance : IsTotal OrderDict costDesc :=
  ⟨fun a b => le_total b.estimated_cost a.estimated_cost⟩

instance : IsTrans OrderDict costDesc :=
  ⟨fun _ _ _ hab hbc => le_trans hbc hab⟩

/-- The sell_orders list of build_orders: one sell dict per negative-delta
item, in input order. -/
def sellOrders (plan_items : List PlanItemInput) (nav : ℚ) : List OrderDict :=
  (plan_items.filter (fun it => decide (it.delta_weight < 0))).map (sellOrderOf nav)

/-- The buy_orders list of build_orders after its sort: one buy dict per
positive-delta item, ordered by estimated cost descending (Python
list.sort is stable; List.insertionSort is a stable sort, hence produces
the identical sequence). -/
def sortedBuys (plan_items : List PlanItemInput) (nav : ℚ) : List OrderDict :=
  ((plan_items.filter (fun it => decide (0 < it.delta_weight))).map
    (buyOrderOf nav)).insertionSort costDesc

/-- OrderBuilder.build_orders: partition items by the sign of delta_weight
(zero-delta items produce nothing), sort the buys by estimated cost
descending, ration the buys against cash_available, and return sells
followed by the buy entries of the rationed list. -/
def build_orders (plan_items : List PlanItemInput) (cash_available nav : ℚ) :
    List OrderDict :=
  let orders := rationBuys cash_available (sortedBuys plan_items nav)
  sellOrders plan_items nav ++ orders.filter (fun o => decide (o.side = OrderSide.BUY))

/-- The buy segment of a build_orders result: its entries with side BUY,
in sequence order. -/
def buyEntries (plan_items : List PlanItemInput) (cash_available nav : ℚ) :
    List OrderDict :=
  (build_orders plan_items cash_available nav).filter
    (fun o => decide (o.side = OrderSide.BUY))

end OrderBuilder

/-! ### Strategy, from packages/core/strategy.py

The prices argument is the Python dict mapping symbol to a dict with keys
current and lookback, read back with .get(_, 0); it is modelled as an
association list of PricePair records whose fields default to 0, so a
missing key corresponds to a field left at its default. -/

structure PricePair where
  current : ℚ := 0
  lookback : ℚ := 0
deriving DecidableEq, Repr

/-- One scored-symbol dict of select_universe.  The target_weight key is
added later in the same function; before that the key is absent, modelled
by the default 0 (no code reads it before it is set). -/
structure ScoredSymbol where
  symbol : String
  market : Market
  score : ℚ
  target_weight : ℚ := 0
deriving DecidableEq, Repr

/-- One plan-item dict of generate_plan in plans.py.  current_price is
attached by the plans router after the strategy ran and only for symbols
present in the prices dict, hence an Option. -/
structure PlanItemDict where
  symbol : String
  market : Market
  current_weight : ℚ
  target_weight : ℚ
  delta_weight : ℚ
  reason : String
  current_price : Option ℚ := none
deriving DecidableEq, Repr

structure DualMomentumStrategy where
  lookback_months : ℤ := 3
  us_top_n : ℕ := 4
  kr_top_m : ℕ := 2
  kr_us_split : ℚ × ℚ := (2/5, 3/5)
deriving DecidableEq, Repr

namespace DualMomentumStrategy

/-- calculate_momentum_score: (current / lookback) - 1, guarded to 0.0
when the lookback price is exactly 0 (the method ignores self). -/
def calculate_momentum_score (current_price lookback_price : ℚ) : ℚ :=
  if lookback_price = 0 then 0 else current_price / lookback_price - 1

/-- The per-market scoring loop of select_universe (the source repeats the
same loop once for KR and once for US): a symbol absent from the prices
dict is skipped silently, otherwise it is scored from the price pair. -/
def scoresFor (mkt : Market) (universe_syms : List String)
    (prices : List (String × PricePair)) : List ScoredSymbol :=
  universe_syms.filterMap (fun symbol =>
    match prices.lookup symbol with
    | none => none
    | some price_data =>
      some { symbol := symbol
             market := mkt
             score := calculate_momentum_score price_data.current price_data.lookback })

/-- The comparison of the two score sorts (sort by score, reverse=True). -/
def scoreDesc (a b : ScoredSymbol) : Prop :=
  b.score ≤ a.score

instance : DecidableRel scoreDesc := fun a b =>
  inferInstanceAs (Decidable (b.score ≤ a.score))

/-- select_universe: score each universe, rank each market descending by
score (stable, as in Python), take the per-market top counts, then assign
each selected symbol the equal weight split fraction / count (0 when the
selection is empty), KR items first. -/
def select_universe (s : DualMomentumStrategy) (universe_kr universe_us : List String)
    (prices : List (String × PricePair)) : List ScoredSymbol :=
  let kr_scores := scoresFor Market.KR universe_kr prices
  let us_scores := scoresFor Market.US universe_us prices
  let kr_sorted := kr_scores.insertionSort scoreDesc
  let us_sorted := us_scores.insertionSort scoreDesc
  let selected_kr := kr_sorted.take s.kr_top_m
  let selected_us := us_sorted.take s.us_top_n
  let kr_weight_per :=
    if selected_kr.isEmpty then 0 else s.kr_us_split.1 / (selected_kr.length : ℚ)
  let us_weight_per :=
    if selected_us.isEmpty then 0 else s.kr_us_split.2 / (selected_us.length : ℚ)
  (selected_kr.map (fun item => { item with target_weight := kr_weight_per })) ++
    (selected_us.map (fun item => { item with target_weight := us_weight_per }))

/-- The selected KR bucket, exposed for the statements below; it is the
value of the selected_kr local of select_universe. -/
def selectedKr (s : DualMomentumStrategy) (universe_kr : List String)
    (prices : List (String × PricePair)) : List ScoredSymbol :=
  ((scoresFor Market.KR universe_kr prices).insertionSort scoreDesc).take s.kr_top_m

/-- The selected US bucket, the value of the selected_us local of
select_universe. -/
def selectedUs (s : DualMomentumStrategy) (universe_us : List String)
    (prices : List (String × PricePair)) : List ScoredSymbol :=
  ((scoresFor Market.US universe_us prices).insertionSort scoreDesc).take s.us_top_n

/-- generate_plan: run select_universe, then for each selected symbol read
the current weight from the portfolio dict (0 when not held) and emit a
plan-item dict with delta_weight = target_weight - current_weight.  The
reason f-string renders the score as a percentage; here the rational is
rendered with toString. -/
def generate_plan (s : DualMomentumStrategy) (current_portfolio : List (String × ℚ))
    (universe_kr universe_us : List String)
    (prices : List (String × PricePair)) : List PlanItemDict :=
  (s.select_universe universe_kr universe_us prices).map (fun item =>
    let current_weight := (current_portfolio.lookup item.symbol).getD 0
    let target_weight := item.target_weight
    let delta_weight := target_weight - current_weight
    { symbol := item.symbol
      market := item.market
      current_weight := current_weight
      target_weight := target_weight
      delta_weight := delta_weight
      reason := "Momentum score: " ++ toString item.score })

end DualMomentumStrategy

/-! ### Constraint checker, from packages/core/constraints.py

Python formats weights in the violation messages with percent formatting;
the embedding renders the same rationals with toString, leaving message
shape and content fields identical otherwise. -/

structure ConstraintChecker where
  max_positions : ℕ := 20
  max_weight_per_name : ℚ := 8/100
  kr_us_split : ℚ × ℚ := (2/5, 3/5)
  split_tolerance : ℚ := 1/100
deriving DecidableEq, Repr

namespace ConstraintChecker

/-- check_positions: item count against max_positions. -/
def check_positions (c : ConstraintChecker) (items : List PlanItemDict) :
    Bool × Option String :=
  if c.max_positions < items.length then
    (false, some ("Positions count " ++ toString items.length ++
      " exceeds max " ++ toString c.max_positions))
  else
    (true, none)

/-- check_weight_per_name: one violation entry per item whose
target_weight exceeds the configured per-name maximum. -/
def check_weight_per_name (c : ConstraintChecker) (items : List PlanItemDict) :
    Bool × Option String :=
  let violations := items.filterMap (fun item =>
    if c.max_weight_per_name < item.target_weight then
      some (item.symbol ++ ": " ++ toString item.target_weight ++ " > " ++
        toString c.max_weight_per_name)
    else none)
  if violations.isEmpty then (true, none)
  else (false, some (String.intercalate "; " violations))

/-- check_kr_us_split: each market's aggregate target weight over the sum
of target weights present, compared to the configured split within the
tolerance; an all-zero total passes. -/
def check_kr_us_split (c : ConstraintChecker) (items : List PlanItemDict) :
    Bool × Option String :=
  let kr_weight :=
    ((items.filter (fun item => decide (item.market = Market.KR))).map
      (fun item => item.target_weight)).sum
  let us_weight :=
    ((items.filter (fun item => decide (item.market = Market.US))).map
      (fun item => item.target_weight)).sum
  let total_weight := kr_weight + us_weight
  if total_weight = 0 then (true, none)
  else
    let kr_ratio := kr_weight / total_weight
    let us_ratio := us_weight / total_weight
    if c.split_tolerance < |kr_ratio - c.kr_us_split.1| ∨
        c.split_tolerance < |us_ratio - c.kr_us_split.2| then
      (false, some ("KR: " ++ toString kr_ratio ++ " (expected " ++
        toString c.kr_us_split.1 ++ "), US: " ++ toString us_ratio ++
        " (expected " ++ toString c.kr_us_split.2 ++ ")"))
    else (true, none)

/-- check_data_quality: a missing or zero current price, or a negative
one, is an issue; one entry per offending item. -/
def check_data_quality (_c : ConstraintChecker) (items : List PlanItemDict) :
    Bool × Option String :=
  let issues := items.filterMap (fun item =>
    match item.current_price with
    | none => some (item.symbol ++ ": missing or zero price")
    | some price =>
      if price = 0 then some (item.symbol ++ ": missing or zero price")
      else if price < 0 then some (item.symbol ++ ": negative price")
      else none)
  if issues.isEmpty then (true, none)
  else (false, some (String.intercalate "; " issues))

/-- The named check list that check_all iterates over, in source order. -/
def checkList (c : ConstraintChecker) :
    List (String × (List PlanItemDict → Bool × Option String)) :=
  [("positions", c.check_positions),
   ("weight_per_name", c.check_weight_per_name),
   ("kr_us_split", c.check_kr_us_split),
   ("data_quality", c.check_data_quality)]

/-- How the f-string of check_all renders the optional message (Python
renders None as the string None; every failing check does set a message,
so the fallback is dead in practice). -/
def msgOrNone : Option String → String
  | some e => e
  | none => "None"

/-- check_all: run every check in the list (no short-circuit), collect a
name-prefixed message for each failure, and pass iff the error list is
empty. -/
def check_all (c : ConstraintChecker) (items : List PlanItemDict) :
    Bool × List String :=
  let errors := (c.checkList).filterMap (fun nc =>
    let r := nc.2 items
    if r.1 then none
    else some (nc.1 ++ ": " ++ msgOrNone r.2))
  (errors.isEmpty, errors)

end ConstraintChecker

/-! ### Database rows, from packages/core/models.py

Row identifiers (uuid4 defaults in the source) are modelled as naturals
drawn from a counter carried in the state; timestamps are not modelled (no
operation in scope branches on them). -/

structure ControlRec where
  id : ℕ := 1
  kill_switch : Bool := false
  reason : Option String := none
deriving DecidableEq, Repr

structure StrategyParams where
  lookback_months : ℤ := 3
  us_top_n : ℕ := 4
  kr_top_m : ℕ := 2
  kr_us_split : ℚ × ℚ := (2/5, 3/5)
deriving DecidableEq, Repr

structure ConstraintParams where
  max_positions : ℕ := 20
  max_weight_per_name : ℚ := 8/100
  kr_us_split : ℚ × ℚ := (2/5, 3/5)
deriving DecidableEq, Repr

structure ConfigVersionRec where
  id : ℕ
  strategy_params : StrategyParams := {}
  constraints : ConstraintParams := {}
deriving DecidableEq, Repr

structure PortfolioSnapshotRec where
  id : ℕ := 0
  asof : ℕ
  positions : List (String × ℚ) := []
  cash : ℚ
  nav : ℚ
deriving DecidableEq, Repr

structure TopChange where
  symbol : String
  delta_weight : ℚ
  current_weight : ℚ
  target_weight : ℚ
deriving DecidableEq, Repr

/-- The summary JSON built by the plans router.  The kr_us_summary display
string renders these four weights as percentages; the weights themselves
are kept instead of the rendered string. -/
structure PlanSummary where
  current_kr_weight : ℚ := 0
  current_us_weight : ℚ := 0
  kr_weight : ℚ := 0
  us_weight : ℚ := 0
  top_3_changes : List TopChange := []
  constraint_passed : Bool := true
  constraint_errors : List String := []
deriving DecidableEq, Repr

structure PlanRec where
  id : ℕ
  run_id : ℕ := 0
  config_version_id : ℕ := 0
  data_snapshot_id : ℕ := 0
  status : PlanStatus
  summary : PlanSummary := {}
  approved_by : Option String := none
  rejected_by : Option String := none
deriving DecidableEq, Repr

/-- A plan_items row; checks holds the constraint_errors list that the
router stores as the JSON dict with the single key constraint_errors. -/
structure PlanItemRec where
  id : ℕ := 0
  plan_id : ℕ
  symbol : String
  market : Market
  current_weight : ℚ := 0
  target_weight : ℚ := 0
  delta_weight : ℚ := 0
  reason : String := ""
  checks : Option (List String) := none
deriving DecidableEq, Repr

structure ExecutionRec where
  id : ℕ
  plan_id : ℕ
  status : ExecutionStatus
  policy : Option String := none
  error : Option String := none
deriving DecidableEq, Repr

structure RunRec where
  id : ℕ
  kind : RunKind
  status : RunStatus
  error : Option String := none
deriving DecidableEq, Repr

structure OrderRec where
  id : ℕ
  plan_id : ℕ
  execution_id : Option ℕ := none
  symbol : String
  side : OrderSide
  qty : ℚ
  order_type : String := "LIMIT"
  limit_price : Option ℚ := none
  status : OrderStatus
  broker_order_id : Option String := none
  error : Option String := none
deriving DecidableEq, Repr

structure FillRec where
  id : ℕ
  order_id : ℕ
  filled_qty : ℚ
  filled_price : ℚ
deriving DecidableEq, Repr

structure AuditEventRec where
  id : ℕ := 0
  event_type : String
  actor : String
  ref_type : Option String := none
  ref_id : Option ℕ := none
  payload : List (String × String) := []
deriving DecidableEq, Repr

/-- The database session state: one field per table touched by the routes
in scope (controls is a single-row table), plus the fresh-id counter. -/
structure DBState where
  control : Option ControlRec := none
  config_versions : List ConfigVersionRec := []
  snapshots : List PortfolioSnapshotRec := []
  plans : List PlanRec := []
  plan_items : List PlanItemRec := []
  executions : List ExecutionRec := []
  runs : List RunRec := []
  orders : List OrderRec := []
  fills : List FillRec := []
  audit_events : List AuditEventRec := []
  next_id : ℕ := 0
deriving DecidableEq, Repr

/-- A raised HTTPException: status code plus the structured detail fields
the guards set (code, message, reason); plain-string details leave code
and reason at none. -/
structure HTTPError where
  status_code : ℕ
  code : Option String := none
  message : String
  reason : Option String := none
deriving DecidableEq, Repr

/-- An operation outcome: a raise carries the state as committed at the
moment of the raise, a normal return carries the result and the final
state. -/
def OpResult (α : Type) := Except (HTTPError × DBState) (α × DBState)

/-- The most recent portfolio snapshot,
query(PortfolioSnapshot).order_by(asof desc).first(); the earliest row
wins among equal asof values. -/
def latestSnapshot (snaps : List PortfolioSnapshotRec) : Option PortfolioSnapshotRec :=
  snaps.foldl (fun acc s =>
    match acc with
    | none => some s
    | some best => if best.asof < s.asof then some s else acc) none

/-- Update the plan row with the given id in place. -/
def DBState.setPlan (db : DBState) (plan_id : ℕ) (f : PlanRec → PlanRec) : DBState :=
  { db with plans := db.plans.map (fun p => if p.id = plan_id then f p else p) }

/-- Update the execution row with the given id in place. -/
def DBState.setExecution (db : DBState) (eid : ℕ) (f : ExecutionRec → ExecutionRec) :
    DBState :=
  { db with executions := db.executions.map (fun e => if e.id = eid then f e else e) }

/-- Update the run row with the given id in place. -/
def DBState.setRun (db : DBState) (rid : ℕ) (f : RunRec → RunRec) : DBState :=
  { db with runs := db.runs.map (fun r => if r.id = rid then f r else r) }

/-! ### Guards, from packages/ops/guards.py -/

/-- The 409 detail raised when the kill switch is on. -/
def killSwitchError (reason : Option String) : HTTPError :=
  { status_code := 409
    code := some "KILL_SWITCH_ON"
    message := "Kill switch is ON. Trading operations are disabled."
    reason := reason }

/-- check_kill_switch: initialize the control row to off when absent,
raise 409 KILL_SWITCH_ON when set, otherwise pass the state through. -/
def check_kill_switch (db : DBState) : OpResult Unit :=
  match db.control with
  | none => .ok ((), { db with control := some { id := 1, kill_switch := false } })
  | some control =>
    if control.kill_switch then .error (killSwitchError control.reason, db)
    else .ok ((), db)

/-- check_plan_approved: 404 PLAN_NOT_FOUND when the plan is absent, 403
PLAN_NOT_APPROVED when its status is not APPROVED. -/
def check_plan_approved (db : DBState) (plan_id : ℕ) :
    Except (HTTPError × DBState) PlanRec :=
  match db.plans.find? (fun p => p.id == plan_id) with
  | none =>
    .error ({ status_code := 404, code := some "PLAN_NOT_FOUND",
              message := "Plan " ++ toString plan_id ++ " not found" }, db)
  | some plan =>
    if plan.status ≠ PlanStatus.APPROVED then
      .error ({ status_code := 403, code := some "PLAN_NOT_APPROVED",
                message := "Plan " ++ toString plan_id ++
                  " is not approved. Current status: " ++
                  (match plan.status with
                   | PlanStatus.PROPOSED => "PROPOSED"
                   | PlanStatus.APPROVED => "APPROVED"
                   | PlanStatus.REJECTED => "REJECTED"
                   | PlanStatus.EXPIRED => "EXPIRED") }, db)
    else .ok plan

/-! ### Audit, from packages/ops/audit.py -/

/-- record_audit_event: append one audit row. -/
def record_audit_event (db : DBState) (event_type actor : String)
    (ref_type : Option String) (ref_id : Option ℕ)
    (payload : List (String × String) := []) : DBState :=
  { db with
      audit_events := db.audit_events ++
        [{ id := db.next_id, event_type := event_type, actor := actor,
           ref_type := ref_type, ref_id := ref_id, payload := payload }]
      next_id := db.next_id + 1 }

/-! ### Plans router, from apps/api/routers/plans.py

The router's external collaborators are passed as arguments: the two
universes (packages/data.load_universe) and the per-symbol price pairs,
which absorb both the broker quotes and the random lookback factor the
router draws, so one argument value fixes one run of the route.  The
Slack notification (fire-and-forget, never raises) is elided. -/

/-- The comparison of the top-3-changes sort: descending absolute
delta_weight. -/
def absDeltaDesc (a b : PlanItemDict) : Prop :=
  |b.delta_weight| ≤ |a.delta_weight|

instance : DecidableRel absDeltaDesc := fun a b =>
  inferInstanceAs (Decidable (|b.delta_weight| ≤ |a.delta_weight|))

/-- The per-item insertion loop creating plan_items rows, all carrying the
same checks value. -/
def addPlanItems (plan_id : ℕ) (checks : Option (List String)) :
    DBState → List PlanItemDict → DBState
  | db, [] => db
  | db, item :: rest =>
    addPlanItems plan_id checks
      { db with
          plan_items := db.plan_items ++
            [{ id := db.next_id, plan_id := plan_id, symbol := item.symbol,
               market := item.market, current_weight := item.current_weight,
               target_weight := item.target_weight, delta_weight := item.delta_weight,
               reason := item.reason, checks := checks }]
          next_id := db.next_id + 1 } rest

/-- The strategy the route instantiates from the config's strategy_params
(step 5). -/
def routeStrategy (cv : ConfigVersionRec) : DualMomentumStrategy :=
  { lookback_months := cv.strategy_params.lookback_months
    us_top_n := cv.strategy_params.us_top_n
    kr_top_m := cv.strategy_params.kr_top_m
    kr_us_split := cv.strategy_params.kr_us_split }

/-- The checker the route instantiates from the config's constraints
(step 6; split_tolerance left at its default, as in the source). -/
def routeChecker (cv : ConfigVersionRec) : ConstraintChecker :=
  { max_positions := cv.constraints.max_positions
    max_weight_per_name := cv.constraints.max_weight_per_name
    kr_us_split := cv.constraints.kr_us_split }

/-- Snapshot positions converted to current weights with the stub price of
100 per unit (step 3). -/
def routePortfolio (snap : PortfolioSnapshotRec) : List (String × ℚ) :=
  snap.positions.map (fun sq =>
    (sq.1, if 0 < snap.nav then sq.2 * 100 / snap.nav else 0))

/-- The generated plan-item dicts with current_price attached for symbols
present in the prices dict (step 5 and the attach loop after it). -/
def routeItems (cv : ConfigVersionRec) (snap : PortfolioSnapshotRec)
    (universe_kr universe_us : List String)
    (prices : List (String × PricePair)) : List PlanItemDict :=
  ((routeStrategy cv).generate_plan (routePortfolio snap)
      universe_kr universe_us prices).map (fun item =>
    match prices.lookup item.symbol with
    | some pp => { item with current_price := some pp.current }
    | none => item)

/-- The summary dict of step 8, parameterized by the checked items and the
aggregate result. -/
def routeSummary (plan_items_dict : List PlanItemDict) (passed : Bool)
    (errors : List String) : PlanSummary :=
  { current_kr_weight :=
      ((plan_items_dict.filter (fun i => decide (i.market = Market.KR))).map
        (fun i => i.current_weight)).sum
    current_us_weight :=
      ((plan_items_dict.filter (fun i => decide (i.market = Market.US))).map
        (fun i => i.current_weight)).sum
    kr_weight :=
      ((plan_items_dict.filter (fun i => decide (i.market = Market.KR))).map
        (fun i => i.target_weight)).sum
    us_weight :=
      ((plan_items_dict.filter (fun i => decide (i.market = Market.US))).map
        (fun i => i.target_weight)).sum
    top_3_changes := ((plan_items_dict.insertionSort absDeltaDesc).take 3).map (fun i =>
      { symbol := i.symbol, delta_weight := i.delta_weight,
        current_weight := i.current_weight, target_weight := i.target_weight })
    constraint_passed := passed
    constraint_errors := if passed then [] else errors }

/-- Steps 5-14 of the generate route, entered once the config version and
the snapshot have been resolved: run strategy and checks, create the Run,
the PROPOSED plan (regardless of the aggregate result), the items carrying
the errors when the aggregate failed, mark the Run DONE and record one
plan_created audit event.  The Slack notification is elided. -/
def generate_plan_core (db0 : DBState) (cid : ℕ) (config_version : ConfigVersionRec)
    (data_snapshot_id : Option ℕ) (snap : PortfolioSnapshotRec)
    (universe_kr universe_us : List String)
    (prices : List (String × PricePair)) : ℕ × DBState :=
  let plan_items_dict := routeItems config_version snap universe_kr universe_us prices
  let checked := (routeChecker config_version).check_all plan_items_dict
  let run : RunRec :=
    { id := db0.next_id, kind := RunKind.PLAN, status := RunStatus.STARTED }
  let db1 := { db0 with runs := db0.runs ++ [run], next_id := db0.next_id + 1 }
  let plan : PlanRec :=
    { id := db1.next_id, run_id := run.id, config_version_id := cid,
      data_snapshot_id := data_snapshot_id.getD 1,
      status := PlanStatus.PROPOSED,
      summary := routeSummary plan_items_dict checked.1 checked.2 }
  let db2 := { db1 with plans := db1.plans ++ [plan], next_id := db1.next_id + 1 }
  let db3 := addPlanItems plan.id (if checked.1 then none else some checked.2)
    db2 plan_items_dict
  let db4 := db3.setRun run.id (fun r => { r with status := RunStatus.DONE })
  let db5 := record_audit_event db4 "plan_created" "system" (some "plan")
    (some plan.id) [("config_version_id", toString cid)]
  (plan.id, db5)

/-- POST /plans/generate.  Note that no kill-switch check appears anywhere
in this route in the source. -/
def generate_plan_route (db0 : DBState) (config_version_id : Option ℕ)
    (data_snapshot_id : Option ℕ) (universe_kr universe_us : List String)
    (prices : List (String × PricePair)) : OpResult ℕ :=
  -- 1. config version
  match config_version_id with
  | none => .error ({ status_code := 400, message := "config_version_id is required" }, db0)
  | some cid =>
  match db0.config_versions.find? (fun cv => cv.id == cid) with
  | none => .error ({ status_code := 404, message := "Config version not found" }, db0)
  | some config_version =>
  -- 2. universes are the universe_kr / universe_us arguments
  -- 3. latest portfolio snapshot
  match latestSnapshot db0.snapshots with
  | none =>
    .error ({ status_code := 404,
              message := "No portfolio snapshot found. Create one first." }, db0)
  | some portfolio_snapshot =>
  .ok (generate_plan_core db0 cid config_version data_snapshot_id portfolio_snapshot
    universe_kr universe_us prices)

/-- POST /plans/plan_id/approve: only a PROPOSED plan may be approved;
emits one plan_approved audit event. -/
def approve_plan (db : DBState) (plan_id : ℕ) (approved_by : String) : OpResult Unit :=
  match db.plans.find? (fun p => p.id == plan_id) with
  | none => .error ({ status_code := 404, message := "Plan not found" }, db)
  | some plan =>
    if plan.status ≠ PlanStatus.PROPOSED then
      .error ({ status_code := 400, message := "Plan is not PROPOSED" }, db)
    else
      let db1 := db.setPlan plan_id (fun p =>
        { p with status := PlanStatus.APPROVED, approved_by := some approved_by })
      let db2 := record_audit_event db1 "plan_approved" approved_by
        (some "plan") (some plan_id)
      -- Slack notification elided
      .ok ((), db2)

/-- POST /plans/plan_id/reject: sets REJECTED with no status guard and
records no audit event. -/
def reject_plan (db : DBState) (plan_id : ℕ) (rejected_by : String) : OpResult Unit :=
  match db.plans.find? (fun p => p.id == plan_id) with
  | none => .error ({ status_code := 404, message := "Plan not found" }, db)
  | some _plan =>
    .ok ((), db.setPlan plan_id (fun p =>
      { p with status := PlanStatus.REJECTED, rejected_by := some rejected_by }))

/-- POST /plans/plan_id/expire: sets EXPIRED with no status guard and
records no audit event. -/
def expire_plan (db : DBState) (plan_id : ℕ) : OpResult Unit :=
  match db.plans.find? (fun p => p.id == plan_id) with
  | none => .error ({ status_code := 404, message := "Plan not found" }, db)
  | some _plan =>
    .ok ((), db.setPlan plan_id (fun p => { p with status := PlanStatus.EXPIRED }))

/-! ### Executions router, from apps/api/routers/executions.py

The broker quote fetch is passed in as an association list from symbol to
price; symbols absent from it fall back to the stub price 100 as in the
source.  The paper-mode loop's in-memory cash/position ledger is computed
by the source and never persisted or returned, and is elided here. -/

/-- Persist one order dict from the paper-execution loop: a SKIPPED dict
is stored as-is with its error and no fill; any other dict is stored,
immediately filled at its limit price for its full quantity, and ends
FILLED with a PAPER broker id.  A zero limit price is stored as NULL
(Python truthiness) while the fill still uses the raw value. -/
def persistOrder (plan_id execution_id : ℕ) (db : DBState) (od : OrderDict) : DBState :=
  if od.status = some "SKIPPED" then
    { db with
        orders := db.orders ++
          [{ id := db.next_id, plan_id := plan_id, execution_id := some execution_id,
             symbol := od.symbol, side := od.side, qty := od.qty,
             order_type := od.order_type,
             limit_price := if od.limit_price = 0 then none else some od.limit_price,
             status := OrderStatus.SKIPPED, error := od.error }]
        next_id := db.next_id + 1 }
  else
    let order_id := db.next_id
    { db with
        orders := db.orders ++
          [{ id := order_id, plan_id := plan_id, execution_id := some execution_id,
             symbol := od.symbol, side := od.side, qty := od.qty,
             order_type := od.order_type,
             limit_price := if od.limit_price = 0 then none else some od.limit_price,
             status := OrderStatus.FILLED,
             broker_order_id := some ("PAPER_" ++ toString order_id) }]
        fills := db.fills ++
          [{ id := order_id + 1, order_id := order_id,
             filled_qty := od.qty, filled_price := od.limit_price }]
        next_id := db.next_id + 2 }

/-- The order-persistence loop over the built order dicts. -/
def persistOrders (plan_id execution_id : ℕ) (db : DBState)
    (order_dicts : List OrderDict) : DBState :=
  order_dicts.foldl (persistOrder plan_id execution_id) db

/-- Steps 1-10 of start_execution once an Execution row exists (freshly
created or found non-DONE): create the Run, mark the execution RUNNING,
fail both on a missing snapshot, else build orders from the plan items
priced by the quotes, persist orders and fills, and finish DONE with one
execution_completed audit event. -/
def run_execution_pipeline (db : DBState) (execution : ExecutionRec) (plan_id : ℕ)
    (quotes : List (String × ℚ)) : OpResult ExecutionRec :=
  match db.plans.find? (fun p => p.id == plan_id) with
  | none => .error ({ status_code := 404, message := "Plan not found" }, db)
  | some _plan =>
  let plan_items := db.plan_items.filter (fun it => it.plan_id == plan_id)
  if plan_items.isEmpty then
    -- raised before the Run is created and before any status update:
    -- the Execution row stays as it was (PENDING when just created)
    .error ({ status_code := 400, message := "Plan has no items" }, db)
  else
  -- 1. create the Run
  let run : RunRec := { id := db.next_id, kind := RunKind.EXECUTE, status := RunStatus.STARTED }
  let db1 := { db with runs := db.runs ++ [run], next_id := db.next_id + 1 }
  -- 2. execution RUNNING
  let db2 := db1.setExecution execution.id (fun e => { e with status := ExecutionStatus.RUNNING })
  -- 3. latest portfolio snapshot
  match latestSnapshot db2.snapshots with
  | none =>
    let db3 := db2.setExecution execution.id (fun e =>
      { e with status := ExecutionStatus.FAILED,
               error := some "No portfolio snapshot found" })
    let db4 := db3.setRun run.id (fun r =>
      { r with status := RunStatus.FAILED, error := some "No portfolio snapshot found" })
    .error ({ status_code := 404, message := "No portfolio snapshot found" }, db4)
  | some portfolio_snapshot =>
  let cash_available := portfolio_snapshot.cash
  let nav := portfolio_snapshot.nav
  -- 4./5. quotes and plan-item dicts, stub price 100 for missing symbols
  let plan_items_dict : List PlanItemInput := plan_items.map (fun item =>
    { symbol := item.symbol, market := item.market,
      current_weight := item.current_weight, target_weight := item.target_weight,
      delta_weight := item.delta_weight,
      current_price := (quotes.lookup item.symbol).getD 100 })
  -- 6. build orders
  let order_dicts := OrderBuilder.build_orders plan_items_dict cash_available nav
  -- 7. persist and paper-fill each order (the in-memory ledger is elided)
  let db3 := persistOrders plan_id execution.id db2 order_dicts
  -- 8. execution DONE, run DONE
  let execution_done :=
    { execution with status := ExecutionStatus.DONE }
  let db4 := db3.setExecution execution.id (fun e => { e with status := ExecutionStatus.DONE })
  let db5 := db4.setRun run.id (fun r => { r with status := RunStatus.DONE })
  -- 9. audit event
  let db6 := record_audit_event db5 "execution_completed" "system"
    (some "execution") (some execution.id)
    [("plan_id", toString plan_id), ("orders_count", toString order_dicts.length)]
  -- 10. Slack notification elided
  .ok (execution_done, db6)

/-- POST /executions/plan_id/start: kill-switch and approval guards, then
the idempotency lookup.  An existing DONE execution is returned as-is;
an existing execution in any other status is reused and the pipeline is
run again against it; otherwise a fresh PENDING execution is created
first. -/
def start_execution (db0 : DBState) (plan_id : ℕ) (policy : Option String)
    (quotes : List (String × ℚ)) : OpResult ExecutionRec :=
  match check_kill_switch db0 with
  | .error e => .error e
  | .ok (_, db1) =>
  match check_plan_approved db1 plan_id with
  | .error e => .error e
  | .ok _plan =>
  match db1.executions.find? (fun e => e.plan_id == plan_id) with
  | some existing =>
    if existing.status = ExecutionStatus.DONE then
      .ok (existing, db1)
    else
      run_execution_pipeline db1 existing plan_id quotes
  | none =>
    let execution : ExecutionRec :=
      { id := db1.next_id, plan_id := plan_id,
        status := ExecutionStatus.PENDING, policy := policy }
    let db2 := { db1 with executions := db1.executions ++ [execution],
                          next_id := db1.next_id + 1 }
    run_execution_pipeline db2 execution plan_id quotes

/-! ### Observation helpers and concrete test states -/

/-- The observable identity of an audit event: type, actor, reference
type, reference id. -/
def auditKey (ev : AuditEventRec) : String × String × Option String × Option ℕ :=
  (ev.event_type, ev.actor, ev.ref_type, ev.ref_id)

/-- The buy-candidate scenario of the spec: with nav 20000, deltas 7/20
and 3/10 cost 7000 and 6000. -/
def scenarioBuyItems : List PlanItemInput :=
  [{ symbol := "A", market := Market.US, current_weight := 0,
     target_weight := 7/20, delta_weight := 7/20, current_price := 100 },
   { symbol := "B", market := Market.US, current_weight := 0,
     target_weight := 3/10, delta_weight := 3/10, current_price := 100 }]

/-- The first plan item of the momentum scenario: 2 KR symbols selected at
weight 0.4 / 2 = 1/5 each. -/
def itemKR7 : PlanItemDict :=
  { symbol := "005930", market := Market.KR, current_weight := 0,
    target_weight := 1/5, delta_weight := 1/5,
    reason := "Momentum score: 1/5" }

/-- The momentum scenario of the spec: 2 KR and 4 US symbols, all
selected. -/
def scenarioPrices : List (String × PricePair) :=
  [("005930", { current := 120, lookback := 100 }),
   ("000660", { current := 110, lookback := 100 }),
   ("AAPL", { current := 140, lookback := 100 }),
   ("MSFT", { current := 130, lookback := 100 }),
   ("GOOG", { current := 120, lookback := 100 }),
   ("AMZN", { current := 110, lookback := 100 })]

/-- A state with an APPROVED one-item plan, one snapshot, and an Execution
already in RUNNING status. -/
def dbRunningC1 : DBState :=
  { control := some {},
    plans := [{ id := 0, status := PlanStatus.APPROVED }],
    plan_items := [{ id := 10, plan_id := 0, symbol := "A", market := Market.US,
                     current_weight := 0, target_weight := 1/10, delta_weight := 1/10 }],
    snapshots := [{ asof := 1, cash := 1000, nav := 10000 }],
    executions := [{ id := 50, plan_id := 0, status := ExecutionStatus.RUNNING }],
    next_id := 100 }

/-- The DONE execution row of dbDoneC1. -/
def exDoneC1 : ExecutionRec :=
  { id := 50, plan_id := 0, status := ExecutionStatus.DONE }

/-- Like dbRunningC1 but with the existing Execution already DONE. -/
def dbDoneC1 : DBState :=
  { control := some {},
    plans := [{ id := 0, status := PlanStatus.APPROVED }],
    plan_items := [{ id := 10, plan_id := 0, symbol := "A", market := Market.US,
                     current_weight := 0, target_weight := 1/10, delta_weight := 1/10 }],
    snapshots := [{ asof := 1, cash := 1000, nav := 10000 }],
    executions := [exDoneC1],
    next_id := 100 }

/-- A state with the kill switch ON plus everything a generate run needs. -/
def dbKillC2 : DBState :=
  { control := some { kill_switch := true, reason := some "halt" },
    config_versions := [{ id := 7 }],
    snapshots := [{ asof := 1, cash := 1000, nav := 10000 }],
    next_id := 100 }

/-- One price entry for the generate runs of the concrete states. -/
def pricesS1 : List (String × PricePair) :=
  [("S1", { current := 110, lookback := 100 })]

/-- A state holding one APPROVED plan. -/
def dbApprovedC3 : DBState :=
  { plans := [{ id := 0, status := PlanStatus.APPROVED }], next_id := 100 }

/-- A state with an APPROVED plan and a snapshot but no plan items and no
execution: the no-items precondition failure of execution start. -/
def dbNoItemsC4 : DBState :=
  { control := some {},
    plans := [{ id := 0, status := PlanStatus.APPROVED }],
    snapshots := [{ asof := 1, cash := 1000, nav := 10000 }],
    next_id := 100 }

/-- A state holding one PROPOSED plan and an empty audit trail. -/
def dbProposedC9 : DBState :=
  { plans := [{ id := 0, status := PlanStatus.PROPOSED }], next_id := 100 }

/-- The constraint checker of the small aggregate-check scenario:
max_positions 2 against 3 items. -/
def cc8 : ConstraintChecker := { max_positions := 2 }

/-- Three plan-item dicts (equal thirds, positive prices). -/
def items8 : List PlanItemDict :=
  [{ symbol := "K1", market := Market.KR, current_weight := 0, target_weight := 1/3,
     delta_weight := 1/3, reason := "", current_price := some 110 },
   { symbol := "K2", market := Market.KR, current_weight := 0, target_weight := 1/3,
     delta_weight := 1/3, reason := "", current_price := some 120 },
   { symbol := "K3", market := Market.KR, current_weight := 0, target_weight := 1/3,
     delta_weight := 1/3, reason := "", current_price := some 130 }]

/-- The config of the db8 run: 3 KR selections against max_positions 2. -/
def cv8 : ConfigVersionRec :=
  { id := 7
    strategy_params := { kr_top_m := 3, kr_us_split := (1, 0) }
    constraints := { max_positions := 2 } }

/-- A generate-route state whose config selects 3 KR symbols against
max_positions 2, so the aggregate check fails while the run succeeds. -/
def db8 : DBState :=
  { control := some {},
    config_versions := [cv8],
    snapshots := [{ asof := 1, cash := 1000, nav := 10000 }],
    next_id := 100 }

/-- The price dict of the db8 run. -/
def prices8 : List (String × PricePair) :=
  [("K1", { current := 110, lookback := 100 }),
   ("K2", { current := 120, lookback := 100 }),
   ("K3", { current := 130, lookback := 100 })]

/-- The db8 generate run. -/
def route8 : OpResult ℕ :=
  generate_plan_route db8 (some 7) none ["K1", "K2", "K3"] [] prices8

/-- The plan id returned by the db8 run. -/
def pid8 : ℕ :=
  match route8 with
  | .ok r => r.1
  | .error _ => 0

/-- The state returned by the db8 run. -/
def db8res : DBState :=
  match route8 with
  | .ok r => r.2
  | .error _ => db8

end TradingSystem

/-! ## Theorems -/

namespace TradingSystem

namespace OrderBuilder

theorem rationBuys_map_side (c : ℚ) (l : List OrderDict) :
    (rationBuys c l).map (fun o => o.side) = l.map (fun o => o.side) := by
  induction l generalizing c with
  | nil => simp [rationBuys]
  | cons o rest ih =>
    by_cases h : o.estimated_cost ≤ c <;> simp [rationBuys, h, ih]

theorem rationBuys_map_cost (c : ℚ) (l : List OrderDict) :
    (rationBuys c l).map (fun o => o.estimated_cost) =
      l.map (fun o => o.estimated_cost) := by
  induction l generalizing c with
  | nil => simp [rationBuys]
  | cons o rest ih =>
    by_cases h : o.estimated_cost ≤ c <;> simp [rationBuys, h, ih]

theorem rationBuys_length (c : ℚ) (l : List OrderDict) :
    (rationBuys c l).length = l.length := by
  have h := congrArg List.length (rationBuys_map_side c l)
  simpa using h

theorem rationBuys_mem_spec (c : ℚ) (l : List OrderDict)
    (hl : ∀ o' ∈ l, o'.status = none) :
    ∀ o ∈ rationBuys c l, ∃ o' ∈ l,
      o.side = o'.side ∧ o.qty = o'.qty ∧ o.limit_price = o'.limit_price ∧
      o.estimated_cost = o'.estimated_cost ∧
      (o.status = none ∨ (o.status = some "SKIPPED" ∧ o.error.isSome = true)) := by
  induction l generalizing c with
  | nil => intro o ho; simp [rationBuys] at ho
  | cons o0 rest ih =>
    intro o ho
    have h0 : o0.status = none := hl o0 (List.mem_cons_self _ _)
    have hrest : ∀ o' ∈ rest, o'.status = none := fun o' h =>
      hl o' (List.mem_cons_of_mem _ h)
    by_cases h : o0.estimated_cost ≤ c
    · rw [rationBuys, if_pos h] at ho
      rcases List.mem_cons.mp ho with h' | ho'
      · rw [h']
        exact ⟨o0, List.mem_cons_self _ _, rfl, rfl, rfl, rfl, Or.inl h0⟩
      · rcases ih (c - o0.estimated_cost) hrest o ho' with ⟨o', ho'', hrest'⟩
        exact ⟨o', List.mem_cons_of_mem _ ho'', hrest'⟩
    · rw [rationBuys, if_neg h] at ho
      rcases List.mem_cons.mp ho with h' | ho'
      · rw [h']
        exact ⟨o0, List.mem_cons_self _ _, rfl, rfl, rfl, rfl, Or.inr ⟨rfl, rfl⟩⟩
      · rcases ih c hrest o ho' with ⟨o', ho'', hrest'⟩
        exact ⟨o', List.mem_cons_of_mem _ ho'', hrest'⟩

theorem rationBuys_admitted_sum (c : ℚ) (l : List OrderDict)
    (hl : ∀ o' ∈ l, o'.status = none) :
    (((rationBuys c l).filter (fun o => decide (o.status ≠ some "SKIPPED"))).map
      (fun o => o.estimated_cost)).sum ≤ max c 0 := by
  induction l generalizing c with
  | nil => simp [rationBuys]
  | cons o rest ih =>
    have h0 : o.status = none := hl o (List.mem_cons_self _ _)
    have hrest : ∀ o' ∈ rest, o'.status = none := fun o' h =>
      hl o' (List.mem_cons_of_mem _ h)
    by_cases h : o.estimated_cost ≤ c
    · rw [rationBuys, if_pos h]
      have hih := ih (c - o.estimated_cost) hrest
      rw [List.filter_cons]
      rw [if_pos (by simp [h0])]
      simp only [List.map_cons, List.sum_cons]
      rcases le_total (c - o.estimated_cost) 0 with h1 | h1
      · rw [max_eq_right h1] at hih
        have h2 : c ≤ max c 0 := le_max_left c 0
        linarith
      · rw [max_eq_left h1] at hih
        have h2 : c ≤ max c 0 := le_max_left c 0
        linarith
    · rw [rationBuys, if_neg h]
      rw [List.filter_cons]
      rw [if_neg (by simp)]
      exact ih c hrest

theorem sortedBuys_forall (plan_items : List PlanItemInput) (nav : ℚ) :
    ∀ o ∈ sortedBuys plan_items nav, o.side = OrderSide.BUY ∧ o.status = none ∧
      o.qty = (if 0 < o.limit_price then o.estimated_cost / o.limit_price else 0) := by
  intro o ho
  simp only [sortedBuys] at ho
  have hmem : o ∈ (plan_items.filter (fun it => decide (0 < it.delta_weight))).map
      (buyOrderOf nav) :=
    (List.perm_insertionSort costDesc _).mem_iff.mp ho
  rcases List.mem_map.mp hmem with ⟨it, _, rfl⟩
  refine ⟨rfl, rfl, ?_⟩
  by_cases h : 0 < it.current_price <;> simp [buyOrderOf, h]

theorem sellOrders_forall (plan_items : List PlanItemInput) (nav : ℚ) :
    ∀ o ∈ sellOrders plan_items nav, o.side = OrderSide.SELL := by
  intro o ho
  simp only [sellOrders] at ho
  rcases List.mem_map.mp ho with ⟨it, _, rfl⟩
  rfl

theorem rationBuys_all_buy (plan_items : List PlanItemInput) (cash nav : ℚ) :
    ∀ o ∈ rationBuys cash (sortedBuys plan_items nav), o.side = OrderSide.BUY := by
  intro o ho
  have hm : o.side ∈ (rationBuys cash (sortedBuys plan_items nav)).map
      (fun o => o.side) := List.mem_map_of_mem _ ho
  rw [rationBuys_map_side] at hm
  rcases List.mem_map.mp hm with ⟨o', ho', he⟩
  rw [← he]
  exact (sortedBuys_forall plan_items nav o' ho').1

theorem buyEntries_eq (plan_items : List PlanItemInput) (cash nav : ℚ) :
    buyEntries plan_items cash nav = rationBuys cash (sortedBuys plan_items nav) := by
  have hfil : (rationBuys cash (sortedBuys plan_items nav)).filter
      (fun o => decide (o.side = OrderSide.BUY)) =
      rationBuys cash (sortedBuys plan_items nav) :=
    List.filter_eq_self.mpr (fun o ho => by
      simp [rationBuys_all_buy plan_items cash nav o ho])
  have hsells : (sellOrders plan_items nav).filter
      (fun o => decide (o.side = OrderSide.BUY)) = [] := by
    rw [List.filter_eq_nil_iff]
    intro o ho
    simp [sellOrders_forall plan_items nav o ho]
  simp only [buyEntries, build_orders, List.filter_append, hfil, hsells,
    List.nil_append]

/-- Negative-delta items plus positive-delta items are exactly the items
of nonzero delta. -/
theorem length_filter_sign (plan_items : List PlanItemInput) :
    (plan_items.filter (fun it => decide (it.delta_weight < 0))).length +
      (plan_items.filter (fun it => decide (0 < it.delta_weight))).length =
      (plan_items.filter (fun it => decide (it.delta_weight ≠ 0))).length := by
  induction plan_items with
  | nil => simp
  | cons it rest ih =>
    rcases lt_trichotomy it.delta_weight 0 with h | h | h
    · simp only [List.filter_cons]
      rw [if_pos (by simpa using h), if_neg (by simpa using lt_asymm h),
        if_pos (by simpa using h.ne)]
      simp only [List.length_cons]
      omega
    · simp only [List.filter_cons]
      rw [if_neg (by simp [h]), if_neg (by simp [h]), if_neg (by simp [h])]
      exact ih
    · simp only [List.filter_cons]
      rw [if_neg (by simpa using lt_asymm h), if_pos (by simpa using h),
        if_pos (by simpa using h.ne.symm)]
      simp only [List.length_cons]
      omega

end OrderBuilder

/-- C6: in every build_orders result, every SELL order precedes every BUY
order, and items with delta_weight exactly zero contribute no order: the
result has exactly one order per item of nonzero delta_weight. -/
theorem build_orders_sell_before_buy (plan_items : List PlanItemInput) (cash nav : ℚ) :
    (OrderBuilder.build_orders plan_items cash nav).Pairwise
      (fun a b => ¬(a.side = OrderSide.BUY ∧ b.side = OrderSide.SELL)) ∧
    (OrderBuilder.build_orders plan_items cash nav).length =
      (plan_items.filter (fun it => decide (it.delta_weight ≠ 0))).length := by
  have hrw : OrderBuilder.build_orders plan_items cash nav =
      OrderBuilder.sellOrders plan_items nav ++
        (OrderBuilder.rationBuys cash (OrderBuilder.sortedBuys plan_items nav)).filter
          (fun o => decide (o.side = OrderSide.BUY)) := rfl
  have hfil : (OrderBuilder.rationBuys cash (OrderBuilder.sortedBuys plan_items nav)).filter
      (fun o => decide (o.side = OrderSide.BUY)) =
      OrderBuilder.rationBuys cash (OrderBuilder.sortedBuys plan_items nav) :=
    List.filter_eq_self.mpr (fun o ho => by
      simp [OrderBuilder.rationBuys_all_buy plan_items cash nav o ho])
  constructor
  · rw [hrw, hfil, List.pairwise_append]
    refine ⟨?_, ?_, ?_⟩
    · exact List.pairwise_of_forall_mem_list (fun a ha _b _hb => by
        simp [OrderBuilder.sellOrders_forall plan_items nav a ha])
    · exact List.pairwise_of_forall_mem_list (fun _a _ha b hb => by
        simp [OrderBuilder.rationBuys_all_buy plan_items cash nav b hb])
    · intro a ha b _hb
      simp [OrderBuilder.sellOrders_forall plan_items nav a ha]
  · rw [hrw, hfil, List.length_append, OrderBuilder.rationBuys_length]
    have hsorted : (OrderBuilder.sortedBuys plan_items nav).length =
        (plan_items.filter (fun it => decide (0 < it.delta_weight))).length := by
      rw [OrderBuilder.sortedBuys, (List.perm_insertionSort _ _).length_eq,
        List.length_map]
    have hsells : (OrderBuilder.sellOrders plan_items nav).length =
        (plan_items.filter (fun it => decide (it.delta_weight < 0))).length := by
      rw [OrderBuilder.sellOrders, List.length_map]
    rw [hsorted, hsells]
    exact OrderBuilder.length_filter_sign plan_items

/-- C5: the buy segment of every build_orders result is ordered by
estimated cost descending; when the available cash is non-negative the
estimated costs of the non-SKIPPED buys sum to at most that cash; and
every buy either passed unmarked or was marked SKIPPED with an
insufficient-cash error while keeping its full (never partial) quantity
cost / limit price. -/
theorem build_orders_cash_rationing (plan_items : List PlanItemInput) (cash nav : ℚ)
    (hcash : 0 ≤ cash) :
    (OrderBuilder.buyEntries plan_items cash nav).Pairwise
      (fun a b => b.estimated_cost ≤ a.estimated_cost) ∧
    (((OrderBuilder.buyEntries plan_items cash nav).filter
        (fun o => decide (o.status ≠ some "SKIPPED"))).map
      (fun o => o.estimated_cost)).sum ≤ cash ∧
    ∀ o ∈ OrderBuilder.buyEntries plan_items cash nav,
      o.side = OrderSide.BUY ∧
      o.qty = (if 0 < o.limit_price then o.estimated_cost / o.limit_price else 0) ∧
      (o.status = none ∨ (o.status = some "SKIPPED" ∧ o.error.isSome = true)) := by
  rw [OrderBuilder.buyEntries_eq]
  have hstat : ∀ o' ∈ OrderBuilder.sortedBuys plan_items nav, o'.status = none :=
    fun o' h => (OrderBuilder.sortedBuys_forall plan_items nav o' h).2.1
  refine ⟨?_, ?_, ?_⟩
  · have hs : (OrderBuilder.sortedBuys plan_items nav).Pairwise OrderBuilder.costDesc := by
      rw [OrderBuilder.sortedBuys]
      exact List.sorted_insertionSort OrderBuilder.costDesc _
    have h1 : ((OrderBuilder.sortedBuys plan_items nav).map
        (fun o => o.estimated_cost)).Pairwise (fun x y => y ≤ x) :=
      List.pairwise_map.mpr (hs.imp (fun h => h))
    rw [← OrderBuilder.rationBuys_map_cost cash] at h1
    exact List.pairwise_map.mp h1
  · have h := OrderBuilder.rationBuys_admitted_sum cash
      (OrderBuilder.sortedBuys plan_items nav) hstat
    rwa [max_eq_left hcash] at h
  · intro o ho
    rcases OrderBuilder.rationBuys_mem_spec cash _ hstat o ho with
      ⟨o', ho', hside, hqty, hlim, hcost, hstatus⟩
    have h3 := OrderBuilder.sortedBuys_forall plan_items nav o' ho'
    refine ⟨hside.trans h3.1, ?_, hstatus⟩
    rw [hqty, hlim, hcost]
    exact h3.2.2

namespace DualMomentumStrategy

theorem scoresFor_mem_spec (mkt : Market) (universe_syms : List String)
    (prices : List (String × PricePair)) :
    ∀ sc ∈ scoresFor mkt universe_syms prices,
      (prices.lookup sc.symbol).isSome = true ∧ sc.market = mkt ∧
      sc.target_weight = 0 := by
  intro sc hsc
  simp only [scoresFor] at hsc
  rcases List.mem_filterMap.mp hsc with ⟨sym, _, heq⟩
  cases hlook : prices.lookup sym with
  | none => rw [hlook] at heq; simp at heq
  | some pp =>
    rw [hlook] at heq
    simp only [Option.some.injEq] at heq
    rw [← heq]
    exact ⟨by rw [hlook]; rfl, rfl, rfl⟩

end DualMomentumStrategy

/-- C7: every item emitted by the momentum strategy's generate_plan has
delta_weight exactly target_weight minus current_weight, a current weight
read from the portfolio with default 0, a symbol backed by price data (the
rest of the universe was silently skipped), and a target weight of the
market's split fraction divided by the number of symbols selected in that
market. -/
theorem generate_plan_weights (s : DualMomentumStrategy)
    (current_portfolio : List (String × ℚ)) (universe_kr universe_us : List String)
    (prices : List (String × PricePair)) :
    ∀ item ∈ s.generate_plan current_portfolio universe_kr universe_us prices,
      item.delta_weight = item.target_weight - item.current_weight ∧
      item.current_weight = ((current_portfolio.lookup item.symbol).getD 0) ∧
      (prices.lookup item.symbol).isSome = true ∧
      (item.market = Market.KR →
        item.target_weight =
          s.kr_us_split.1 / ((s.selectedKr universe_kr prices).length : ℚ)) ∧
      (item.market = Market.US →
        item.target_weight =
          s.kr_us_split.2 / ((s.selectedUs universe_us prices).length : ℚ)) := by
  intro item hitem
  simp only [DualMomentumStrategy.generate_plan] at hitem
  rcases List.mem_map.mp hitem with ⟨sel, hsel, rfl⟩
  simp only [DualMomentumStrategy.select_universe] at hsel
  refine ⟨rfl, rfl, ?_, ?_, ?_⟩ <;>
    rcases List.mem_append.mp hsel with hkr | hus
  · -- price data, KR side
    rcases List.mem_map.mp hkr with ⟨base, hbase, rfl⟩
    have hbase' : base ∈ DualMomentumStrategy.scoresFor Market.KR universe_kr prices :=
      (List.perm_insertionSort DualMomentumStrategy.scoreDesc _).subset
        (List.take_subset _ _ hbase)
    exact (DualMomentumStrategy.scoresFor_mem_spec _ _ _ base hbase').1
  · -- price data, US side
    rcases List.mem_map.mp hus with ⟨base, hbase, rfl⟩
    have hbase' : base ∈ DualMomentumStrategy.scoresFor Market.US universe_us prices :=
      (List.perm_insertionSort DualMomentumStrategy.scoreDesc _).subset
        (List.take_subset _ _ hbase)
    exact (DualMomentumStrategy.scoresFor_mem_spec _ _ _ base hbase').1
  · -- KR weight, KR side
    rcases List.mem_map.mp hkr with ⟨base, hbase, rfl⟩
    intro _
    have hne : (((DualMomentumStrategy.scoresFor Market.KR universe_kr
        prices).insertionSort DualMomentumStrategy.scoreDesc).take s.kr_top_m).isEmpty
        = false := by
      cases hemp : (((DualMomentumStrategy.scoresFor Market.KR universe_kr
          prices).insertionSort DualMomentumStrategy.scoreDesc).take s.kr_top_m).isEmpty
      · rfl
      · rw [List.isEmpty_iff] at hemp
        rw [hemp] at hbase
        simp at hbase
    simp only [hne, Bool.false_eq_true, if_false]
    rfl
  · -- KR weight, US side: the item is a US item, so the premise is false
    rcases List.mem_map.mp hus with ⟨base, hbase, rfl⟩
    intro hm
    have hbase' : base ∈ DualMomentumStrategy.scoresFor Market.US universe_us prices :=
      (List.perm_insertionSort DualMomentumStrategy.scoreDesc _).subset
        (List.take_subset _ _ hbase)
    have := (DualMomentumStrategy.scoresFor_mem_spec _ _ _ base hbase').2.1
    simp only [this] at hm
    cases hm
  · -- US weight, KR side: premise false
    rcases List.mem_map.mp hkr with ⟨base, hbase, rfl⟩
    intro hm
    have hbase' : base ∈ DualMomentumStrategy.scoresFor Market.KR universe_kr prices :=
      (List.perm_insertionSort DualMomentumStrategy.scoreDesc _).subset
        (List.take_subset _ _ hbase)
    have := (DualMomentumStrategy.scoresFor_mem_spec _ _ _ base hbase').2.1
    simp only [this] at hm
    cases hm
  · -- US weight, US side
    rcases List.mem_map.mp hus with ⟨base, hbase, rfl⟩
    intro _
    have hne : (((DualMomentumStrategy.scoresFor Market.US universe_us
        prices).insertionSort DualMomentumStrategy.scoreDesc).take s.us_top_n).isEmpty
        = false := by
      cases hemp : (((DualMomentumStrategy.scoresFor Market.US universe_us
          prices).insertionSort DualMomentumStrategy.scoreDesc).take s.us_top_n).isEmpty
      · rfl
      · rw [List.isEmpty_iff] at hemp
        rw [hemp] at hbase
        simp at hbase
    simp only [hne, Bool.false_eq_true, if_false]
    rfl

/-- C10: the momentum score is total: a zero (or defaulted-missing)
lookback price scores 0.0 instead of dividing, and such a symbol still
enters its market's scoring list rather than being excluded. -/
theorem calculate_momentum_score_total (current c : ℚ) (mkt : Market)
    (universe_syms : List String) (prices : List (String × PricePair)) (sym : String)
    (hmem : sym ∈ universe_syms)
    (hp : prices.lookup sym = some { current := c, lookback := 0 }) :
    DualMomentumStrategy.calculate_momentum_score current 0 = 0 ∧
    ({ symbol := sym, market := mkt, score := 0 } : ScoredSymbol) ∈
      DualMomentumStrategy.scoresFor mkt universe_syms prices := by
  constructor
  · simp [DualMomentumStrategy.calculate_momentum_score]
  · simp only [DualMomentumStrategy.scoresFor]
    refine List.mem_filterMap.mpr ⟨sym, hmem, ?_⟩
    rw [hp]
    simp [DualMomentumStrategy.calculate_momentum_score]

theorem addPlanItems_plans (pid : ℕ) (chk : Option (List String)) :
    ∀ (db : DBState) (l : List PlanItemDict), (addPlanItems pid chk db l).plans = db.plans := by
  intro db l
  induction l generalizing db with
  | nil => rfl
  | cons item rest ih => rw [addPlanItems, ih]

theorem addPlanItems_runs (pid : ℕ) (chk : Option (List String)) :
    ∀ (db : DBState) (l : List PlanItemDict), (addPlanItems pid chk db l).runs = db.runs := by
  intro db l
  induction l generalizing db with
  | nil => rfl
  | cons item rest ih => rw [addPlanItems, ih]

theorem addPlanItems_audit (pid : ℕ) (chk : Option (List String)) :
    ∀ (db : DBState) (l : List PlanItemDict),
      (addPlanItems pid chk db l).audit_events = db.audit_events := by
  intro db l
  induction l generalizing db with
  | nil => rfl
  | cons item rest ih => rw [addPlanItems, ih]

theorem addPlanItems_items_spec (pid : ℕ) (chk : Option (List String)) :
    ∀ (db : DBState) (l : List PlanItemDict),
      ∀ it ∈ (addPlanItems pid chk db l).plan_items,
        it ∈ db.plan_items ∨ (it.plan_id = pid ∧ it.checks = chk) := by
  intro db l
  induction l generalizing db with
  | nil => intro it hit; exact Or.inl hit
  | cons item rest ih =>
    intro it hit
    rw [addPlanItems] at hit
    rcases ih _ it hit with h | h
    · simp only [List.mem_append, List.mem_singleton] at h
      rcases h with h' | h'
      · exact Or.inl h'
      · rw [h']
        exact Or.inr ⟨rfl, rfl⟩
    · exact Or.inr h

theorem check_all_fst (c : ConstraintChecker) (items : List PlanItemDict) :
    (c.check_all items).1 = (c.check_all items).2.isEmpty := rfl

/-- The persistence effect of a resolved generate run: the result state
holds exactly one new plan, in PROPOSED status, whose summary carries the
aggregate result, and every freshly inserted item row carries the error
list exactly when the aggregate failed. -/
theorem generate_plan_core_spec (db0 : DBState) (cid : ℕ) (cv : ConfigVersionRec)
    (dsid : Option ℕ) (snap : PortfolioSnapshotRec) (ukr uus : List String)
    (prices : List (String × PricePair)) :
    ∃ plan ∈ (generate_plan_core db0 cid cv dsid snap ukr uus prices).2.plans,
      plan.id = (generate_plan_core db0 cid cv dsid snap ukr uus prices).1 ∧
      plan.status = PlanStatus.PROPOSED ∧
      plan.summary.constraint_passed =
        ((routeChecker cv).check_all (routeItems cv snap ukr uus prices)).1 ∧
      plan.summary.constraint_errors =
        (if ((routeChecker cv).check_all (routeItems cv snap ukr uus prices)).1 then []
         else ((routeChecker cv).check_all (routeItems cv snap ukr uus prices)).2) ∧
      (∀ it ∈ (generate_plan_core db0 cid cv dsid snap ukr uus prices).2.plan_items,
        it ∉ db0.plan_items →
        it.plan_id = (generate_plan_core db0 cid cv dsid snap ukr uus prices).1 ∧
        it.checks =
          (if ((routeChecker cv).check_all (routeItems cv snap ukr uus prices)).1 then none
           else some ((routeChecker cv).check_all
             (routeItems cv snap ukr uus prices)).2)) := by
  refine ⟨{ id := db0.next_id + 1, run_id := db0.next_id, config_version_id := cid,
            data_snapshot_id := dsid.getD 1, status := PlanStatus.PROPOSED,
            summary := routeSummary (routeItems cv snap ukr uus prices)
              ((routeChecker cv).check_all (routeItems cv snap ukr uus prices)).1
              ((routeChecker cv).check_all (routeItems cv snap ukr uus prices)).2 },
          ?_, ?_, ?_, ?_, ?_, ?_⟩
  · dsimp only [generate_plan_core, record_audit_event, DBState.setRun]
    rw [addPlanItems_plans]
    exact List.mem_append_right _ (List.mem_singleton.mpr rfl)
  · rfl
  · rfl
  · rfl
  · rfl
  · intro it hit hnotold
    rcases addPlanItems_items_spec _ _ _ _ it hit with h | h
    · exact absurd h hnotold
    · exact h

/-- C8: the aggregate constraint check conjoins all four predicates, runs
every one with no short-circuit (each failing predicate contributes its
name-prefixed message), every collected message is prefixed by a check
name; and its failure is advisory: a successful plan-generation run always
persists the plan in PROPOSED status, with a failing aggregate leaving a
nonempty violation list in the plan summary and the same list recorded in
every freshly created item's checks field. -/
theorem check_all_advisory (c : ConstraintChecker) (items : List PlanItemDict) :
    ((c.check_all items).1 = ((c.check_positions items).1 &&
      ((c.check_weight_per_name items).1 &&
        ((c.check_kr_us_split items).1 && (c.check_data_quality items).1)))) ∧
    ((c.check_positions items).1 = false →
      ("positions: " ++ ConstraintChecker.msgOrNone (c.check_positions items).2) ∈ (c.check_all items).2) ∧
    ((c.check_weight_per_name items).1 = false →
      ("weight_per_name: " ++ ConstraintChecker.msgOrNone (c.check_weight_per_name items).2) ∈
        (c.check_all items).2) ∧
    ((c.check_kr_us_split items).1 = false →
      ("kr_us_split: " ++ ConstraintChecker.msgOrNone (c.check_kr_us_split items).2) ∈
        (c.check_all items).2) ∧
    ((c.check_data_quality items).1 = false →
      ("data_quality: " ++ ConstraintChecker.msgOrNone (c.check_data_quality items).2) ∈
        (c.check_all items).2) ∧
    (∀ e ∈ (c.check_all items).2, ∃ nm m,
      nm ∈ (["positions", "weight_per_name", "kr_us_split", "data_quality"] :
        List String) ∧ e = nm ++ ": " ++ m) ∧
    (∀ db cid dsid ukr uus prices pid db',
      generate_plan_route db cid dsid ukr uus prices = .ok (pid, db') →
      ∃ plan ∈ db'.plans, plan.id = pid ∧ plan.status = PlanStatus.PROPOSED ∧
        (plan.summary.constraint_passed = false →
          plan.summary.constraint_errors ≠ []) ∧
        (∀ it ∈ db'.plan_items, it ∉ db.plan_items →
          it.plan_id = pid ∧
          it.checks = (if plan.summary.constraint_passed then none
            else some plan.summary.constraint_errors))) := by
  refine ⟨?_, ?_, ?_, ?_, ?_, ?_, ?_⟩
  · cases h1 : (c.check_positions items).1 <;>
      cases h2 : (c.check_weight_per_name items).1 <;>
        cases h3 : (c.check_kr_us_split items).1 <;>
          cases h4 : (c.check_data_quality items).1 <;>
            simp [ConstraintChecker.check_all, ConstraintChecker.checkList,
              h1, h2, h3, h4]
  · intro h
    simp only [ConstraintChecker.check_all]
    exact List.mem_filterMap.mpr ⟨("positions", c.check_positions),
      by simp [ConstraintChecker.checkList], by simp [h]⟩
  · intro h
    simp only [ConstraintChecker.check_all]
    exact List.mem_filterMap.mpr ⟨("weight_per_name", c.check_weight_per_name),
      by simp [ConstraintChecker.checkList], by simp [h]⟩
  · intro h
    simp only [ConstraintChecker.check_all]
    exact List.mem_filterMap.mpr ⟨("kr_us_split", c.check_kr_us_split),
      by simp [ConstraintChecker.checkList], by simp [h]⟩
  · intro h
    simp only [ConstraintChecker.check_all]
    exact List.mem_filterMap.mpr ⟨("data_quality", c.check_data_quality),
      by simp [ConstraintChecker.checkList], by simp [h]⟩
  · intro e he
    simp only [ConstraintChecker.check_all] at he
    rcases List.mem_filterMap.mp he with ⟨nc, hnc, hf⟩
    by_cases hr : (nc.2 items).1 = true
    · simp [hr] at hf
    · rw [Bool.not_eq_true] at hr
      simp only [hr, Bool.false_eq_true, if_false, Option.some.injEq] at hf
      refine ⟨nc.1, ConstraintChecker.msgOrNone (nc.2 items).2, ?_, hf.symm⟩
      simp only [ConstraintChecker.checkList, List.mem_cons,
        List.not_mem_nil, or_false] at hnc
      rcases hnc with h | h | h | h <;> rw [h] <;> simp
  · intro db cid dsid ukr uus prices pid db' hok
    cases cid with
    | none => simp [generate_plan_route] at hok
    | some cidv =>
    cases hcfg : db.config_versions.find? (fun cv => cv.id == cidv) with
    | none => simp [generate_plan_route, hcfg] at hok
    | some config_version =>
    cases hsnap : latestSnapshot db.snapshots with
    | none => simp [generate_plan_route, hcfg, hsnap] at hok
    | some snap =>
    simp only [generate_plan_route, hcfg, hsnap] at hok
    have hok2 := Except.ok.inj hok
    have h1 : (generate_plan_core db cidv config_version dsid snap ukr uus prices).1
        = pid := by rw [hok2]
    have h2 : (generate_plan_core db cidv config_version dsid snap ukr uus prices).2
        = db' := by rw [hok2]
    rcases generate_plan_core_spec db cidv config_version dsid snap ukr uus prices with
      ⟨plan, hmem, hid, hstat, hpass, herr, hitems⟩
    rw [h2] at hmem
    rw [h1] at hid
    rw [h1, h2] at hitems
    refine ⟨plan, hmem, hid, hstat, ?_, ?_⟩
    · intro hfail
      rw [hpass] at hfail
      rw [herr, hfail, if_neg (by simp)]
      have hne : ((routeChecker config_version).check_all
          (routeItems config_version snap ukr uus prices)).2 ≠ [] := by
        intro hnil
        rw [check_all_fst, hnil] at hfail
        simp at hfail
      exact hne
    · intro it hit hnot
      rcases hitems it hit hnot with ⟨h1, h2⟩
      refine ⟨h1, ?_⟩
      rw [h2, hpass, herr]
      cases hc : ((routeChecker config_version).check_all
          (routeItems config_version snap ukr uus prices)).1 <;> simp

theorem persistOrder_runs (pid eid : ℕ) (db : DBState) (od : OrderDict) :
    (persistOrder pid eid db od).runs = db.runs := by
  rw [persistOrder]
  split <;> rfl

theorem persistOrder_audit (pid eid : ℕ) (db : DBState) (od : OrderDict) :
    (persistOrder pid eid db od).audit_events = db.audit_events := by
  rw [persistOrder]
  split <;> rfl

theorem persistOrders_runs (pid eid : ℕ) (ods : List OrderDict) :
    ∀ db : DBState, (persistOrders pid eid db ods).runs = db.runs := by
  induction ods with
  | nil => intro db; rfl
  | cons od rest ih =>
    intro db
    rw [persistOrders, List.foldl_cons, ← persistOrders, ih, persistOrder_runs]

theorem persistOrders_audit (pid eid : ℕ) (ods : List OrderDict) :
    ∀ db : DBState, (persistOrders pid eid db ods).audit_events = db.audit_events := by
  induction ods with
  | nil => intro db; rfl
  | cons od rest ih =>
    intro db
    rw [persistOrders, List.foldl_cons, ← persistOrders, ih, persistOrder_audit]

/-- What a successful pipeline pass guarantees: the returned Execution
keeps the id of the row it was entered with and ends DONE, exactly one Run
row was added, and exactly one execution_completed audit event was
appended, referencing that execution. -/
theorem run_execution_pipeline_ok_spec (db : DBState) (ex : ExecutionRec)
    (plan_id : ℕ) (quotes : List (String × ℚ)) (e' : ExecutionRec) (db' : DBState)
    (hok : run_execution_pipeline db ex plan_id quotes = .ok (e', db')) :
    e'.id = ex.id ∧ e'.status = ExecutionStatus.DONE ∧
    db'.runs.length = db.runs.length + 1 ∧
    db'.audit_events.map auditKey = db.audit_events.map auditKey ++
      [("execution_completed", "system", some "execution", some ex.id)] := by
  cases hplan : db.plans.find? (fun p => p.id == plan_id) with
  | none => simp [run_execution_pipeline, hplan] at hok
  | some plan =>
  cases hempty : (db.plan_items.filter (fun it => it.plan_id == plan_id)).isEmpty with
  | true => simp [run_execution_pipeline, hplan, hempty] at hok
  | false =>
  cases hsnap : latestSnapshot db.snapshots with
  | none =>
    rw [run_execution_pipeline] at hok
    rw [hplan] at hok
    simp only [hempty, Bool.false_eq_true, if_false] at hok
    dsimp only [DBState.setExecution] at hok
    rw [hsnap] at hok
    cases hok
  | some snap =>
  rw [run_execution_pipeline] at hok
  rw [hplan] at hok
  simp only [hempty, Bool.false_eq_true, if_false] at hok
  dsimp only [DBState.setExecution] at hok
  rw [hsnap] at hok
  dsimp only at hok
  have h := Except.ok.inj hok
  have he := congrArg Prod.fst h
  have hdb := congrArg Prod.snd h
  dsimp only at he hdb
  subst he
  subst hdb
  refine ⟨rfl, rfl, ?_, ?_⟩
  · dsimp only [record_audit_event, DBState.setRun, DBState.setExecution]
    rw [persistOrders_runs]
    dsimp only
    rw [List.length_map, List.length_append]
    rfl
  · dsimp only [record_audit_event, DBState.setRun, DBState.setExecution]
    rw [persistOrders_audit]
    dsimp only
    rw [List.map_append]
    rfl

unseal Rat.mul Rat.add Rat.sub Rat.inv in
/-- C1 counterexample: with an existing RUNNING execution (id 50) and no
Run or Order rows yet, a second start invocation returns the same
execution id but with status changed to DONE, and persists a Run and an
Order: the pipeline re-ran, so the call was not side-effect-free. -/
theorem start_execution_rerun_counterexample :
    dbRunningC1.runs = [] ∧ dbRunningC1.orders = [] ∧
    (dbRunningC1.executions.map (fun e => (e.id, e.status))) =
      [(50, ExecutionStatus.RUNNING)] ∧
    (start_execution dbRunningC1 0 none [("A", 10)]).toOption.map
      (fun r => (r.1.id, r.1.status, r.2.runs.length, r.2.orders.length)) =
      some (50, ExecutionStatus.DONE, 1, 1) := by decide

/-- C1 amended: start_execution always reuses the existing Execution row
(same identifier, a second Execution row is never created), but only an
existing DONE Execution short-circuits the call, which then returns the
row unchanged with no state change; for any other existing status the
pipeline re-runs against the same Execution, persisting one more Run (and
order set). -/
theorem start_execution_idempotent_only_when_done (db : DBState) (plan_id : ℕ)
    (policy : Option String) (quotes : List (String × ℚ)) (ctl : ControlRec)
    (plan : PlanRec) (ex : ExecutionRec)
    (hctl : db.control = some ctl) (hkill : ctl.kill_switch = false)
    (hfound : db.plans.find? (fun p => p.id == plan_id) = some plan)
    (happ : plan.status = PlanStatus.APPROVED)
    (hex : db.executions.find? (fun e => e.plan_id == plan_id) = some ex) :
    (ex.status = ExecutionStatus.DONE →
      start_execution db plan_id policy quotes = .ok (ex, db)) ∧
    (∀ e' db', start_execution db plan_id policy quotes = .ok (e', db') →
      e'.id = ex.id ∧
      (ex.status ≠ ExecutionStatus.DONE →
        e'.status = ExecutionStatus.DONE ∧
        db'.runs.length = db.runs.length + 1)) := by
  have hred : start_execution db plan_id policy quotes =
      (if ex.status = ExecutionStatus.DONE then .ok (ex, db)
       else run_execution_pipeline db ex plan_id quotes) := by
    simp [start_execution, check_kill_switch, hctl, hkill, check_plan_approved,
      hfound, happ, hex]
  constructor
  · intro hdone
    rw [hred, if_pos hdone]
  · intro e' db' hok
    rw [hred] at hok
    by_cases hdone : ex.status = ExecutionStatus.DONE
    · rw [if_pos hdone] at hok
      have h := Except.ok.inj hok
      have he := congrArg Prod.fst h
      dsimp only at he
      exact ⟨by rw [← he], fun hne => absurd hdone hne⟩
    · rw [if_neg hdone] at hok
      have h := run_execution_pipeline_ok_spec db ex plan_id quotes e' db' hok
      exact ⟨h.1, fun _ => ⟨h.2.1, h.2.2.1⟩⟩

theorem start_execution_idempotent_only_when_done_witness :
    exDoneC1.status = ExecutionStatus.DONE ∧
    start_execution dbDoneC1 0 none [] = .ok (exDoneC1, dbDoneC1) :=
  ⟨rfl,
    (start_execution_idempotent_only_when_done dbDoneC1 0 none [] {}
      { id := 0, status := PlanStatus.APPROVED } exDoneC1
      rfl rfl (by decide) rfl (by decide)).1 rfl⟩

theorem generate_plan_core_plans_length (db0 : DBState) (cid : ℕ)
    (cv : ConfigVersionRec) (dsid : Option ℕ) (snap : PortfolioSnapshotRec)
    (ukr uus : List String) (prices : List (String × PricePair)) :
    (generate_plan_core db0 cid cv dsid snap ukr uus prices).2.plans.length =
      db0.plans.length + 1 := by
  dsimp only [generate_plan_core, record_audit_event, DBState.setRun]
  rw [addPlanItems_plans]
  dsimp only
  rw [List.length_append]
  rfl

unseal Rat.mul Rat.add Rat.sub Rat.inv in
/-- C2 counterexample: with the kill switch ON, plan generation does not
fail with KILL_SWITCH_ON; it succeeds, creating a Run, a Plan and its
items. -/
theorem generate_plan_no_kill_switch_check_counterexample :
    (dbKillC2.control.map (fun c => c.kill_switch)) = some true ∧
    (generate_plan_route dbKillC2 (some 7) none ["S1"] [] pricesS1).toOption.map
      (fun r => (r.2.plans.length, r.2.plan_items.length, r.2.runs.length)) =
      some (1, 1, 1) := by decide

/-- C2 amended: with the kill switch ON, execution-start fails with the
409 KILL_SWITCH_ON error before mutating any state; plan generation,
however, performs no kill-switch check at all and proceeds to create a
plan whenever its own preconditions (config and snapshot present) hold. -/
theorem kill_switch_gating (db : DBState) (plan_id : ℕ) (policy : Option String)
    (quotes : List (String × ℚ)) (ctl : ControlRec)
    (hctl : db.control = some ctl) (hkill : ctl.kill_switch = true) :
    (start_execution db plan_id policy quotes =
      .error (killSwitchError ctl.reason, db)) ∧
    (killSwitchError ctl.reason).status_code = 409 ∧
    (killSwitchError ctl.reason).code = some "KILL_SWITCH_ON" ∧
    (∀ cid cv dsid ukr uus prices,
      db.config_versions.find? (fun c => c.id == cid) = some cv →
      ∀ snap, latestSnapshot db.snapshots = some snap →
      ∃ pid db',
        generate_plan_route db (some cid) dsid ukr uus prices = .ok (pid, db') ∧
        db'.plans.length = db.plans.length + 1) := by
  refine ⟨?_, rfl, rfl, ?_⟩
  · simp [start_execution, check_kill_switch, hctl, hkill, killSwitchError]
  · intro cid cv dsid ukr uus prices hcfg snap hsnap
    refine ⟨(generate_plan_core db cid cv dsid snap ukr uus prices).1,
            (generate_plan_core db cid cv dsid snap ukr uus prices).2, ?_, ?_⟩
    · simp only [generate_plan_route, hcfg, hsnap]
    · exact generate_plan_core_plans_length db cid cv dsid snap ukr uus prices

theorem kill_switch_gating_witness :
    dbKillC2.control = some { kill_switch := true, reason := some "halt" } ∧
    start_execution dbKillC2 0 none [] =
      .error (killSwitchError (some "halt"), dbKillC2) :=
  ⟨rfl,
    (kill_switch_gating dbKillC2 0 none []
      { kill_switch := true, reason := some "halt" } rfl rfl).1⟩

/-- C3 counterexample: reject succeeds on an APPROVED (terminal) plan and
moves it to REJECTED, so a terminal plan does move to another state. -/
theorem reject_ignores_status_counterexample :
    ((dbApprovedC3.plans.find? (fun p => p.id == 0)).map (fun p => p.status) =
      some PlanStatus.APPROVED) ∧
    ((reject_plan dbApprovedC3 0 "ops").toOption.bind
      (fun r => (r.2.plans.find? (fun p => p.id == 0)).map (fun p => p.status))) =
      some PlanStatus.REJECTED := by decide

/-- C3 amended: approve is guarded (only a PROPOSED plan can be approved,
anything else errors with the state unchanged) and moves the plan to
APPROVED, so no operation ever returns a plan to PROPOSED; but reject and
expire check only existence and unconditionally move a plan of any status
(terminal ones included) to REJECTED or EXPIRED respectively. -/
theorem plan_status_transition_guards (db : DBState) (plan_id : ℕ) (actor : String)
    (plan : PlanRec)
    (hfound : db.plans.find? (fun p => p.id == plan_id) = some plan) :
    (plan.status ≠ PlanStatus.PROPOSED →
      approve_plan db plan_id actor =
        .error ({ status_code := 400, message := "Plan is not PROPOSED" }, db)) ∧
    (∀ db', approve_plan db plan_id actor = .ok ((), db') →
      ∀ p ∈ db'.plans, p.id = plan_id → p.status = PlanStatus.APPROVED) ∧
    (∀ db', reject_plan db plan_id actor = .ok ((), db') →
      ∀ p ∈ db'.plans, p.id = plan_id → p.status = PlanStatus.REJECTED) ∧
    (∀ db', expire_plan db plan_id = .ok ((), db') →
      ∀ p ∈ db'.plans, p.id = plan_id → p.status = PlanStatus.EXPIRED) := by
  refine ⟨?_, ?_, ?_, ?_⟩
  · intro hne
    simp only [approve_plan, hfound]
    rw [if_pos hne]
  · intro db' hok p hp hpid
    simp only [approve_plan, hfound] at hok
    by_cases hne : plan.status ≠ PlanStatus.PROPOSED
    · rw [if_pos hne] at hok
      cases hok
    · rw [if_neg hne] at hok
      have h := congrArg Prod.snd (Except.ok.inj hok)
      dsimp only at h
      rw [← h] at hp
      rcases List.mem_map.mp hp with ⟨q, _, hqe⟩
      by_cases hqid : q.id = plan_id
      · rw [← hqe, if_pos hqid]
      · rw [← hqe, if_neg hqid] at hpid
        exact absurd hpid hqid
  · intro db' hok p hp hpid
    simp only [reject_plan, hfound] at hok
    have h := congrArg Prod.snd (Except.ok.inj hok)
    dsimp only at h
    rw [← h] at hp
    rcases List.mem_map.mp hp with ⟨q, _, hqe⟩
    by_cases hqid : q.id = plan_id
    · rw [← hqe, if_pos hqid]
    · rw [← hqe, if_neg hqid] at hpid
      exact absurd hpid hqid
  · intro db' hok p hp hpid
    simp only [expire_plan, hfound] at hok
    have h := congrArg Prod.snd (Except.ok.inj hok)
    dsimp only at h
    rw [← h] at hp
    rcases List.mem_map.mp hp with ⟨q, _, hqe⟩
    by_cases hqid : q.id = plan_id
    · rw [← hqe, if_pos hqid]
    · rw [← hqe, if_neg hqid] at hpid
      exact absurd hpid hqid

theorem plan_status_transition_guards_witness :
    ((dbApprovedC3.plans.find? (fun p => p.id == 0)).map (fun p => p.status) =
      some PlanStatus.APPROVED) ∧
    approve_plan dbApprovedC3 0 "ops" =
      .error ({ status_code := 400, message := "Plan is not PROPOSED" },
        dbApprovedC3) :=
  ⟨by decide,
    (plan_status_transition_guards dbApprovedC3 0 "ops"
      { id := 0, status := PlanStatus.APPROVED } (by decide)).1 (by decide)⟩

/-- C4: evaluation at the failing input.  Starting execution on an
APPROVED plan with no items raises 400 "Plan has no items", but the
Execution row created just before the check is left in PENDING with no
error, and no Run row exists: the failure is not recorded as FAILED. -/
theorem start_execution_no_items_leaves_pending :
    (match start_execution dbNoItemsC4 0 none [] with
     | .error (e, _) => some (e.status_code, e.message)
     | .ok _ => none) = some (400, "Plan has no items") ∧
    (match start_execution dbNoItemsC4 0 none [] with
     | .error (_, db') => db'.executions.map (fun x => (x.plan_id, x.status, x.error))
     | .ok _ => []) = [(0, ExecutionStatus.PENDING, none)] ∧
    (match start_execution dbNoItemsC4 0 none [] with
     | .error (_, db') => db'.runs.length
     | .ok _ => 1) = 0 := by
  refine ⟨?_, ?_, ?_⟩ <;> decide

/-- C9 counterexample: rejecting a PROPOSED plan (a lifecycle transition)
appends no audit event: the trail stays empty. -/
theorem reject_plan_no_audit_counterexample :
    dbProposedC9.audit_events = [] ∧
    ((dbProposedC9.plans.find? (fun p => p.id == 0)).map (fun p => p.status) =
      some PlanStatus.PROPOSED) ∧
    ((reject_plan dbProposedC9 0 "ops").toOption.map
      (fun r => (r.2.audit_events.length,
        (r.2.plans.find? (fun p => p.id == 0)).map (fun p => p.status)))) =
      some (0, some PlanStatus.REJECTED) := by decide

theorem generate_plan_core_audit (db0 : DBState) (cid : ℕ) (cv : ConfigVersionRec)
    (dsid : Option ℕ) (snap : PortfolioSnapshotRec) (ukr uus : List String)
    (prices : List (String × PricePair)) :
    (generate_plan_core db0 cid cv dsid snap ukr uus prices).2.audit_events.map
        auditKey =
      db0.audit_events.map auditKey ++
        [("plan_created", "system", some "plan",
          some (generate_plan_core db0 cid cv dsid snap ukr uus prices).1)] := by
  dsimp only [generate_plan_core, record_audit_event, DBState.setRun]
  rw [addPlanItems_audit]
  dsimp only
  rw [List.map_append]
  rfl

/-- C9 amended: plan creation, plan approval and a pipeline-running
execution start each append exactly one audit event carrying the event
type, actor, reference type and reference id; plan rejection and plan
expiry record none. -/
theorem audit_events_per_transition (db : DBState) (plan_id : ℕ) (actor : String) :
    (∀ cid dsid ukr uus prices pid db',
      generate_plan_route db cid dsid ukr uus prices = .ok (pid, db') →
      db'.audit_events.map auditKey = db.audit_events.map auditKey ++
        [("plan_created", "system", some "plan", some pid)]) ∧
    (∀ db', approve_plan db plan_id actor = .ok ((), db') →
      db'.audit_events.map auditKey = db.audit_events.map auditKey ++
        [("plan_approved", actor, some "plan", some plan_id)]) ∧
    (∀ policy quotes ctl e' db',
      db.control = some ctl → ctl.kill_switch = false →
      db.executions.find? (fun e => e.plan_id == plan_id) = none →
      start_execution db plan_id policy quotes = .ok (e', db') →
      db'.audit_events.map auditKey = db.audit_events.map auditKey ++
        [("execution_completed", "system", some "execution", some e'.id)]) ∧
    (∀ db', reject_plan db plan_id actor = .ok ((), db') →
      db'.audit_events = db.audit_events) ∧
    (∀ db', expire_plan db plan_id = .ok ((), db') →
      db'.audit_events = db.audit_events) := by
  refine ⟨?_, ?_, ?_, ?_, ?_⟩
  · intro cid dsid ukr uus prices pid db' hok
    cases cid with
    | none => simp [generate_plan_route] at hok
    | some cidv =>
    cases hcfg : db.config_versions.find? (fun cv => cv.id == cidv) with
    | none => simp [generate_plan_route, hcfg] at hok
    | some config_version =>
    cases hsnap : latestSnapshot db.snapshots with
    | none => simp [generate_plan_route, hcfg, hsnap] at hok
    | some snap =>
    simp only [generate_plan_route, hcfg, hsnap] at hok
    have hok2 := Except.ok.inj hok
    have h1 : (generate_plan_core db cidv config_version dsid snap ukr uus
        prices).1 = pid := by rw [hok2]
    have h2 : (generate_plan_core db cidv config_version dsid snap ukr uus
        prices).2 = db' := by rw [hok2]
    have ha := generate_plan_core_audit db cidv config_version dsid snap ukr uus prices
    rw [h1, h2] at ha
    exact ha
  · intro db' hok
    cases hfound : db.plans.find? (fun p => p.id == plan_id) with
    | none => simp [approve_plan, hfound] at hok
    | some plan =>
    simp only [approve_plan, hfound] at hok
    by_cases hne : plan.status ≠ PlanStatus.PROPOSED
    · rw [if_pos hne] at hok
      cases hok
    · rw [if_neg hne] at hok
      have h := congrArg Prod.snd (Except.ok.inj hok)
      dsimp only at h
      rw [← h]
      dsimp only [record_audit_event, DBState.setPlan]
      rw [List.map_append]
      rfl
  · intro policy quotes ctl e' db' hctl hkill hnoex hok
    simp only [start_execution, check_kill_switch, hctl, hkill,
      Bool.false_eq_true, if_false] at hok
    cases happrv : check_plan_approved db plan_id with
    | error e =>
      rw [happrv] at hok
      cases hok
    | ok plan =>
    rw [happrv] at hok
    dsimp only at hok
    rw [hnoex] at hok
    dsimp only at hok
    have hspec := run_execution_pipeline_ok_spec _ _ _ _ _ _ hok
    have haudit := hspec.2.2.2
    have hid := hspec.1
    rw [hid]
    exact haudit
  · intro db' hok
    cases hfound : db.plans.find? (fun p => p.id == plan_id) with
    | none => simp [reject_plan, hfound] at hok
    | some plan =>
    simp only [reject_plan, hfound] at hok
    have h := congrArg Prod.snd (Except.ok.inj hok)
    dsimp only at h
    rw [← h]
    rfl
  · intro db' hok
    cases hfound : db.plans.find? (fun p => p.id == plan_id) with
    | none => simp [expire_plan, hfound] at hok
    | some plan =>
    simp only [expire_plan, hfound] at hok
    have h := congrArg Prod.snd (Except.ok.inj hok)
    dsimp only at h
    rw [← h]
    rfl

theorem audit_events_per_transition_witness :
    ∃ db', reject_plan dbProposedC9 0 "ops" = .ok ((), db') ∧
      db'.audit_events = dbProposedC9.audit_events :=
  ⟨_, rfl, (audit_events_per_transition dbProposedC9 0 "ops").2.2.2.1 _ rfl⟩

unseal Rat.mul Rat.add Rat.sub Rat.inv in
theorem build_orders_cash_rationing_witness :
    (0 : ℚ) ≤ 10000 ∧
    (((OrderBuilder.buyEntries scenarioBuyItems 10000 20000).filter
        (fun o => decide (o.status ≠ some "SKIPPED"))).map
      (fun o => o.estimated_cost)).sum ≤ 10000 ∧
    (OrderBuilder.buyEntries scenarioBuyItems 10000 20000).map
      (fun o => (o.symbol, o.estimated_cost, o.status)) =
      [("A", 7000, none), ("B", 6000, some "SKIPPED")] :=
  ⟨by decide,
   (build_orders_cash_rationing scenarioBuyItems 10000 20000 (by decide)).2.1,
   by decide⟩

unseal Rat.mul Rat.add Rat.sub Rat.inv in
theorem generate_plan_weights_witness :
    itemKR7 ∈ DualMomentumStrategy.generate_plan ({} : DualMomentumStrategy) []
      ["005930", "000660"] ["AAPL", "MSFT", "GOOG", "AMZN"] scenarioPrices ∧
    itemKR7.delta_weight = itemKR7.target_weight - itemKR7.current_weight ∧
    itemKR7.target_weight = 1/5 :=
  ⟨by decide,
   ((generate_plan_weights ({} : DualMomentumStrategy) []
      ["005930", "000660"] ["AAPL", "MSFT", "GOOG", "AMZN"] scenarioPrices)
      itemKR7 (by decide)).1,
   by decide⟩

unseal Rat.mul Rat.add Rat.sub Rat.inv in
theorem check_all_advisory_witness :
    (cc8.check_positions items8).1 = false ∧
    (cc8.check_positions items8).2 = some "Positions count 3 exceeds max 2" ∧
    ("positions: " ++ ConstraintChecker.msgOrNone (cc8.check_positions items8).2) ∈
      (cc8.check_all items8).2 ∧
    (∃ plan ∈ db8res.plans, plan.id = pid8 ∧ plan.status = PlanStatus.PROPOSED) :=
  ⟨by decide, by decide,
   (check_all_advisory cc8 items8).2.1 (by decide),
   by
    obtain ⟨plan, hm, hid, hstat, _, _⟩ :=
      (check_all_advisory cc8 items8).2.2.2.2.2.2 db8 (some 7) none
        ["K1", "K2", "K3"] [] prices8 pid8 db8res (by rfl)
    exact ⟨plan, hm, hid, hstat⟩⟩

theorem calculate_momentum_score_total_witness :
    ("X" ∈ (["X"] : List String)) ∧
    DualMomentumStrategy.calculate_momentum_score 3 0 = 0 ∧
    ({ symbol := "X", market := Market.KR, score := 0 } : ScoredSymbol) ∈
      DualMomentumStrategy.scoresFor Market.KR ["X"]
        [("X", { current := 5, lookback := 0 })] :=
  ⟨by decide,
   (calculate_momentum_score_total 3 5 Market.KR ["X"]
      [("X", { current := 5, lookback := 0 })] "X" (by decide) (by decide)).1,
   (calculate_momentum_score_total 3 5 Market.KR ["X"]
      [("X", { current := 5, lookback := 0 })] "X" (by decide) (by decide)).2⟩

end TradingSystem
